import Mathlib

/-!
Verification of the provider-discovery and authentication-flow core of the
`oidc-auth-manager` repository, shallowly embedded in Lean 4.

Sources embedded here:
* `src/preferred-provider.js` — provider discovery and resolution
  (`preferredProviderFor`, `providerExists`, `discoverProviderFor`,
  `discoverFromHeaders`, `discoverAllFromProfile`, `validateProviderUri`).
* `src/handlers/select-provider-request.js` — `SelectProviderRequest.normalizeUri`.
* `src/handlers/auth-callback-request.js` (the revision containing the
  `webIdFromClaims` identity resolver and the `returnToUrl` default) —
  `AuthCallbackRequest.{fromParams, validate, handle, get, initSessionUserAuth,
  resumeUserWorkflow, extractReturnToUrl}`.
* `src/handlers/login-consent-request.js` — both revisions of
  `LoginConsentRequest`: the one that redirects to the interactive consent
  page and raises the `AuthResponseSent` signal (namespace `LoginConsentV1`),
  and the one keyed on `host.localClientId` that renders the consent view
  (namespace `LoginConsentV2`).
* `src/host-api.js` — `obtainConsent` (namespace `HostApi`).

External collaborators (the `whatwg-url` and `valid-url` libraries, `fetch`,
the rdflib profile fetcher, the per-issuer relying-party client, and the
claims-to-identity resolver `webIdFromClaims`) are modelled as explicit
executable functions or as function-valued parameters, following the contracts
stated for them in the specification.  JavaScript exceptions are modelled with
explicit error results, and response/store side effects with explicit action
and step traces, so that every run of the embedded code is a total, computable
value.
-/

/-! ## JavaScript value and error model -/

/-- Truthiness of a JS string-or-undefined value: `undefined`/`null` and the
empty string are falsy, every other string is truthy. -/
def jsTruthy : Option String → Bool
  | none => false
  | some s => s ≠ ""

/-- Model of a JS `Error` object as thrown by this code base: a message, an
optional `statusCode` property, an optional `cause` message, and a marker for
the `AuthResponseSent` signal class. -/
structure JsError where
  message : String
  statusCode : Option Nat := none
  cause : Option String := none
  isAuthResponseSent : Bool := false
  deriving Repr, DecidableEq

/-- Modelled from the spec: the `AuthResponseSent` error class
(`src/errors/auth-response-sent.js`, required by `login-consent-request.js`
but not present among the sources).  Per the spec it is the
TerminalRedirectSignal: "not a failure — a control signal meaning a redirect
response was already emitted; stop further authorize-processing". -/
def authResponseSent (message : String) : JsError :=
  { message := message, isAuthResponseSent := true }

/-- An error arising from a rejected `fetch` call that no layer retypes: it
carries only the underlying message, and in particular no `statusCode`. -/
def rawFetchError (message : String) : JsError :=
  { message := message }

/-- The `TypeError` thrown by the `new URL(u)` constructor on an unparsable
input (the `whatwg-url` collaborator). -/
def urlTypeError (input : String) : JsError :=
  { message := "Invalid URL: " ++ input }

/-! ## Model of the external URL collaborators

`preferred-provider.js` uses `new URL(u).origin` (whatwg-url) and
`validUrl.isUri` (valid-url).  We model origin extraction executably for
URIs of the shape `scheme://host[/path][?query][#fragment]`; anything without
a `://` separator, or with an empty scheme or host, makes the constructor
throw, which we model as `none`. -/

/-- Splits a character list at the first occurrence of `://`, returning the
part before it and the part after it, or `none` when no `://` occurs. -/
def breakAtSchemeSep : List Char → Option (List Char × List Char)
  | [] => none
  | ':' :: '/' :: '/' :: rest => some ([], rest)
  | c :: rest =>
    match breakAtSchemeSep rest with
    | some (pre, post) => some (c :: pre, post)
    | none => none

/-- Model of the external whatwg-url collaborator: `new URL(u).origin`.
Returns `scheme://host` for an input of the shape
`scheme://host[/...][?...][#...]` with nonempty scheme and host, and `none`
(the constructor throws) otherwise. -/
def urlOrigin (u : String) : Option String :=
  match breakAtSchemeSep u.data with
  | none => none
  | some (scheme, rest) =>
    let host := rest.takeWhile (fun c => c ≠ '/' && c ≠ '?' && c ≠ '#')
    if scheme = [] ∨ host = [] then none
    else some (String.mk (scheme ++ [':', '/', '/'] ++ host))

/-- Model of the external valid-url collaborator, `validUrl.isUri`, on the
strings this code passes to it (origins produced by `urlOrigin`, and raw
candidate strings): a string is accepted when it has the
`scheme://host` shape. -/
def isUri (u : String) : Bool :=
  (urlOrigin u).isSome

/-! ## `src/preferred-provider.js` -/

/-- The error thrown by `validateProviderUri` when the provider value is
falsy: `OIDC issuer not advertised for ${webId}. See ...`, `statusCode` 400. -/
def noIssuerAdvertisedError (webId : String) : JsError :=
  { message := "OIDC issuer not advertised for " ++ webId ++
      ".\n    See https://github.com/solid/webid-oidc-spec#authorized-oidc-issuer-discovery"
    statusCode := some 400 }

/-- The error thrown by `validateProviderUri` when the provider value is not
a well-formed URI, `statusCode` 400. -/
def invalidIssuerError (webId provider : String) : JsError :=
  { message := "OIDC issuer for " ++ webId ++ " is not a valid URI: " ++ provider
    statusCode := some 400 }

/-- `validateProviderUri(provider, webId)`: throws the not-advertised error on
a falsy provider and the invalid-URI error on a malformed one. -/
def validateProviderUri (provider : Option String) (webId : String) : Except JsError Unit :=
  match provider with
  | none => .error (noIssuerAdvertisedError webId)
  | some p =>
    if p = "" then .error (noIssuerAdvertisedError webId)
    else if isUri p then .ok ()
    else .error (invalidIssuerError webId p)

/-- The typed error produced by `discoverAllFromProfile` when the Web ID
profile cannot be loaded: `Could not reach Web ID ${webId} to discover
provider`, `statusCode` 400. -/
def unreachableError (webId : String) (cause : Option String) : JsError :=
  { message := "Could not reach Web ID " ++ webId ++ " to discover provider"
    statusCode := some 400
    cause := cause }

/-- Result of the `fetch(webId, { method: OPTIONS })` header probe: either a
network-level rejection, or a response with a success flag and the value of
the `http://openid.net/specs/connect/1.0/issuer` Link relation parsed from
its headers (the `parseProviderLink` step, modelled as part of the response
since the `li` link-header parser is an external collaborator). -/
inductive OptionsResult where
  | netError (message : String)
  | response (ok : Bool) (issuerLink : Option String)
  deriving Repr, DecidableEq

/-- Result of the HEAD probe of `<origin>/.well-known/openid-configuration`. -/
inductive HeadResult where
  | netError (message : String)
  | response (ok : Bool)
  deriving Repr, DecidableEq

/-- Result of the rdflib profile fetch: a network-level rejection, or a
response with a success flag and the ordered list of objects of the
`solid:oidcIssuer` predicate on the Web ID node. -/
inductive ProfileResult where
  | netError (message : String)
  | response (ok : Bool) (issuers : List String)
  deriving Repr, DecidableEq

/-- The network, as seen by `preferred-provider.js`: the three kinds of
request it can issue.  A `Net` value plays the role of the external `fetch`
and rdflib collaborators. -/
structure Net where
  headProbe : String → HeadResult
  options : String → OptionsResult
  profile : String → ProfileResult

/-- One network call made by the discovery code, for tracing which steps ran. -/
inductive NetCall where
  | head (uri : String)
  | optionsCall (uri : String)
  | profileLoad (uri : String)
  deriving Repr, DecidableEq

/-- `discoverFromHeaders(webId)`: OPTIONS request to the Web ID; on a
successful response, the parsed issuer link (possibly absent); on a
non-success response, `null`; a rejected fetch propagates as-is. -/
def discoverFromHeaders (net : Net) (webId : String) :
    List NetCall × Except JsError (Option String) :=
  ([.optionsCall webId],
    match net.options webId with
    | .netError m => .error (rawFetchError m)
    | .response ok link => .ok (if ok then link else none))

/-- `discoverAllFromProfile(webId)`: loads the profile graph; a rejected load
or a non-success response both become the typed unreachable error
(`statusCode` 400); otherwise the collected list of advertised issuers. -/
def discoverAllFromProfile (net : Net) (webId : String) :
    List NetCall × Except JsError (List String) :=
  ([.profileLoad webId],
    match net.profile webId with
    | .netError m => .error (unreachableError webId (some m))
    | .response ok issuers =>
      if ok then .ok issuers
      else .error (unreachableError webId none))

/-- Whether the `issuer` argument of `discoverProviderFor` selects this
candidate: `(issuer && providerUri === issuer) || !issuer`. -/
def issuerMatches (issuer : Option String) (providerUri : String) : Bool :=
  (jsTruthy issuer && issuer = some providerUri) || !(jsTruthy issuer)

/-- One iteration of the candidate loop body of `discoverProviderFor`, for a
candidate `c`: on a truthy candidate, `new URL(c).origin` (whose `TypeError`
escapes the loop, `.error`); then `validateProviderUri` inside the `try`,
giving either the validated origin (`.inl`) or the caught validation error
that becomes `lastErr` (`.inr`).  A falsy candidate skips the URL step and
fails validation. -/
def candidateStep (webId c : String) : Except JsError (String ⊕ JsError) :=
  if c = "" then
    .ok (.inr (noIssuerAdvertisedError webId))
  else
    match urlOrigin c with
    | none => .error (urlTypeError c)
    | some o =>
      match validateProviderUri (some o) webId with
      | .ok _ => .ok (.inl o)
      | .error e => .ok (.inr e)

/-- The candidate loop of `discoverProviderFor` over a profile-supplied list:
returns the first candidate that validates and matches the `issuer` argument;
after the loop, throws the last validation error if the final iteration set
one, and otherwise `validateProviderUri(null, webId)` (the not-advertised
error).  `lastErr` is reset at the start of every iteration, so only the
final element can contribute the after-loop error, which is why the
single-element case carries the last-iteration logic. -/
def discoverLoop (webId : String) (issuer : Option String) :
    List String → Except JsError String
  | [] => .error (noIssuerAdvertisedError webId)
  | [c] =>
    match candidateStep webId c with
    | .error e => .error e
    | .ok (.inl o) =>
      if issuerMatches issuer o then .ok o
      else .error (noIssuerAdvertisedError webId)
    | .ok (.inr vErr) => .error vErr
  | c :: rest =>
    match candidateStep webId c with
    | .error e => .error e
    | .ok (.inl o) =>
      if issuerMatches issuer o then .ok o
      else discoverLoop webId issuer rest
    | .ok (.inr _) => discoverLoop webId issuer rest

/-- The single-candidate branch of `discoverProviderFor` (provider URI found
in the headers, truthy): reduce to origin (the constructor may throw), then
`validateProviderUri`, then return the origin. -/
def singleCandidateResult (webId p : String) : Except JsError String :=
  match urlOrigin p with
  | none => .error (urlTypeError p)
  | some o =>
    match validateProviderUri (some o) webId with
    | .error e => .error e
    | .ok _ => .ok o

/-- `discoverProviderFor(webId, issuer)`: header probe first; a truthy header
result takes the single-candidate branch, otherwise the profile list feeds
the candidate loop. -/
def discoverProviderFor (net : Net) (webId : String) (issuer : Option String) :
    List NetCall × Except JsError String :=
  let h := discoverFromHeaders net webId
  match h.2 with
  | .error e => (h.1, .error e)
  | .ok link =>
    if jsTruthy link then
      (h.1, singleCandidateResult webId (link.getD ""))
    else
      let p := discoverAllFromProfile net webId
      (h.1 ++ p.1,
        match p.2 with
        | .error e => .error e
        | .ok list => discoverLoop webId issuer list)

/-- `providerExists(uri)`: HEAD probe of
`<origin>/.well-known/openid-configuration`; a successful response returns
the origin, a non-success response returns `null`. -/
def providerExists (net : Net) (uri : String) :
    List NetCall × Except JsError (Option String) :=
  match urlOrigin uri with
  | none => ([], .error (urlTypeError uri))
  | some origin =>
    let configUri := origin ++ "/.well-known/openid-configuration"
    ([.head configUri],
      match net.headProbe configUri with
      | .netError m => .error (rawFetchError m)
      | .response ok => .ok (if ok then some origin else none))

/-- `preferredProviderFor(uri)`: self-check via `providerExists`, and only on
a null result fall back to `discoverProviderFor(uri)` (with no issuer
argument). -/
def preferredProviderFor (net : Net) (uri : String) :
    List NetCall × Except JsError String :=
  let e := providerExists net uri
  match e.2 with
  | .error err => (e.1, .error err)
  | .ok (some providerUri) => (e.1, .ok providerUri)
  | .ok none =>
    let d := discoverProviderFor net uri none
    (e.1 ++ d.1, d.2)

/-! ## `src/handlers/select-provider-request.js` — `normalizeUri` -/

/-- Whether the first list of characters begins with the second. -/
def charsLead : List Char → List Char → Bool
  | _, [] => true
  | [], _ :: _ => false
  | c :: cs, p :: ps => c = p && charsLead cs ps

/-- Model of the JS `String.prototype.startsWith` check used by
`normalizeUri`, as a structural test on the character lists. -/
def charsLeadWith (s pre : String) : Bool :=
  charsLead s.data pre.data

/-- `SelectProviderRequest.normalizeUri(uri)`: a falsy input (`null`,
`undefined`, the empty string) is returned as is; otherwise `https://` is
prepended exactly when the input does not start with `http`. -/
def normalizeUri : Option String → Option String
  | none => none
  | some uri =>
    if uri = "" then some uri
    else if !(charsLeadWith uri "http") then some ("https://" ++ uri)
    else some uri

/-! ## `src/handlers/auth-callback-request.js`

The revision embedded is the one whose `AuthCallbackRequest.get` converts
errors into a redirect to `/login`, whose constructor defaults `returnToUrl`
to `/`, and whose `initSessionUserAuth` resolves the Web ID through
`oidcManager.webIdFromClaims`. -/

/-- Model of the JS builtin `decodeURIComponent` on the percent-free strings
appearing in this development: the identity.  (No input considered by the
claims below contains a percent escape.) -/
def decodeUriComponent (s : String) : String := s

/-- The server-side session, with the attributes this code reads or writes.
`none` models an attribute that is absent from the session object. -/
structure Session where
  returnToUrl : Option String := none
  userId : Option String := none
  identified : Option Bool := none
  accessToken : Option String := none
  refreshToken : Option String := none
  deriving Repr, DecidableEq

/-- The session object resolved by the external relying-party client from
`client.validateResponse(requestUri, session)`: per the token-client
contract it carries the decoded claims payload and the access and refresh
tokens.  Claims are treated as an opaque blob. -/
structure RpAuthSession where
  accessToken : String
  refreshToken : String
  decodedPayload : String
  deriving Repr, DecidableEq

/-- `Object.assign(this.session, session)` in `initSessionUserAuth`: copies
the fields of the relying-party auth session onto the server session. -/
def objectAssignSession (s : Session) (a : RpAuthSession) : Session :=
  { s with accessToken := some a.accessToken, refreshToken := some a.refreshToken }

/-- A response-level action emitted by a handler. -/
inductive ResAction where
  | redirect (status : Nat) (location : String)
  | redirectTo (location : String)
  | render (view : String)
  | send (body : String)
  deriving Repr, DecidableEq

/-- The external collaborators `AuthCallbackRequest.handle` invokes: the
per-issuer relying-party client store (`oidcManager.clients.clientForIssuer`
composed with the loaded client object, whose `validateResponse` receives the
request URI and the session), and the claims-to-identity resolver
`oidcManager.webIdFromClaims`. -/
structure CallbackEnv where
  clientForIssuer : String → Except JsError (String → Session → Except JsError RpAuthSession)
  webIdFromClaims : String → Except JsError String

/-- One observable step of `AuthCallbackRequest.handle`, for tracing the
order in which the collaborators are consulted. -/
inductive CbStep where
  | clientLoad (issuer : String)
  | validateResp (requestUri : String)
  | resolveWebId (claims : String)
  deriving Repr, DecidableEq

/-- An `AuthCallbackRequest` instance, as produced by the constructor. -/
structure AuthCallbackRequest where
  requestUri : String
  issuer : Option String
  returnToUrl : String
  session : Session
  deriving Repr, DecidableEq

/-- The outcome of running the callback handler chain: the final session,
the emitted response actions, the collaborator steps that ran, and the error
with which the chain rejected, if any. -/
structure CallbackResult where
  session : Session
  actions : List ResAction
  steps : List CbStep
  err : Option JsError
  deriving Repr, DecidableEq

namespace AuthCallbackRequest

/-- `AuthCallbackRequest.extractReturnToUrl(session)`: the URI-decoded
`returnToUrl` stored in the session, or `null` when the stored value is
falsy. -/
def extractReturnToUrl (session : Session) : Option String :=
  if jsTruthy session.returnToUrl then
    some (decodeUriComponent (session.returnToUrl.getD ""))
  else none

/-- `options.returnToUrl || '/'` from the constructor. -/
def returnToUrlOrRoot : Option String → String
  | none => "/"
  | some s => if s = "" then "/" else s

/-- `AuthCallbackRequest.fromParams` followed by the constructor: the issuer
is the URI-decoded `issuer_id` path parameter (absent when the parameter is
absent), and `returnToUrl` is recovered from the session with `/` as the
default. -/
def fromParams (issuerParam : Option String) (requestUri : String)
    (session : Session) : AuthCallbackRequest :=
  { requestUri := requestUri
    issuer := issuerParam.map decodeUriComponent
    returnToUrl := returnToUrlOrRoot (extractReturnToUrl session)
    session := session }

/-- The 400 error thrown by `validate()` when the issuer is falsy. -/
def issuerMissingError : JsError :=
  { message := "Issuer id is missing from request params", statusCode := some 400 }

/-- The 401 error produced when `webIdFromClaims` rejects. -/
def webIdVerifyError (cause : String) : JsError :=
  { message := "Could not verify Web ID from token claims"
    statusCode := some 401
    cause := some cause }

/-- `AuthCallbackRequest.handle(request)`: validate, load the issuer client,
validate the authorization response (retyping its failure to a 400), install
the credentials and the resolved Web ID in the session, and resume the user
workflow by deleting `session.returnToUrl` and redirecting (302) to the
recovered `returnToUrl`. -/
def handle (env : CallbackEnv) (r : AuthCallbackRequest) : CallbackResult :=
  if !(jsTruthy r.issuer) then
    { session := r.session, actions := [], steps := [], err := some issuerMissingError }
  else
    let issuer := r.issuer.getD ""
    match env.clientForIssuer issuer with
    | .error e =>
      { session := r.session, actions := [], steps := [.clientLoad issuer], err := some e }
    | .ok validateResponse =>
      match validateResponse r.requestUri r.session with
      | .error e =>
        { session := r.session, actions := []
          steps := [.clientLoad issuer, .validateResp r.requestUri]
          err := some { e with statusCode := some 400 } }
      | .ok rpSession =>
        let s1 := objectAssignSession r.session rpSession
        let claims := rpSession.decodedPayload
        match env.webIdFromClaims claims with
        | .error e =>
          { session := s1, actions := []
            steps := [.clientLoad issuer, .validateResp r.requestUri, .resolveWebId claims]
            err := some (webIdVerifyError e.message) }
        | .ok webId =>
          let s2 := { s1 with userId := some webId }
          let s3 := { s2 with returnToUrl := none }
          { session := s3
            actions := [.redirect 302 r.returnToUrl]
            steps := [.clientLoad issuer, .validateResp r.requestUri, .resolveWebId claims]
            err := none }

/-- The outcome of `AuthCallbackRequest.get`: on top of the handler outcome,
the errors it logged and the error it let escape to the framework. -/
structure GetResult where
  session : Session
  actions : List ResAction
  steps : List CbStep
  logged : List JsError
  propagated : Option JsError
  deriving Repr, DecidableEq

/-- `AuthCallbackRequest.get(req, res)`: runs the handler chain and converts
any rejection into a debug log plus a redirect to `/login`; nothing is
rethrown. -/
def get (env : CallbackEnv) (r : AuthCallbackRequest) : GetResult :=
  let h := handle env r
  match h.err with
  | some e =>
    { session := h.session, actions := h.actions ++ [.redirectTo "/login"]
      steps := h.steps, logged := [e], propagated := none }
  | none =>
    { session := h.session, actions := h.actions, steps := h.steps
      logged := [], propagated := none }

end AuthCallbackRequest

/-! ## `src/handlers/login-consent-request.js` and `src/host-api.js`

Two revisions of `LoginConsentRequest` appear in the sources.  `LoginConsentV1`
is the revision whose local-client test compares the redirect-URI origin with
the configured server URI and whose pending-consent path redirects to the
interactive `/sharing` page and raises the `AuthResponseSent` signal.
`LoginConsentV2` is the revision whose local-client test compares the
requesting client id with `host.localClientId` and whose pending-consent path
renders the consent view. -/

/-- The authorization parameters carried by a query or body object:
`client_id`, `scope`, `redirect_uri` and the consent flag submitted from the
consent page. -/
structure AuthzParams where
  clientId : Option String := none
  scope : Option String := none
  redirectUri : Option String := none
  consentFlag : Bool := false
  deriving Repr, DecidableEq

/-- The authorization-request context handed to the host hooks by the
external identity-provider component, together with the request-scoped data
the consent code reads: the OP-parsed authorization parameters
(`opAuthRequest.params`), the raw query and body objects, the serialized
query string (for rebuilding the consent URL), the session consented-origins
set, the server URI (`req.app.locals.ldp.serverUri`) and the configured
local client id (`opAuthRequest.host.localClientId`). -/
structure OpAuthRequest where
  subject : Option String := none
  consent : Option Bool := none
  scope : Option String := none
  headersSent : Bool := false
  opParams : AuthzParams := {}
  queryParams : AuthzParams := {}
  bodyParams : AuthzParams := {}
  queryString : String := ""
  consentedOrigins : List String := []
  serverUri : String := ""
  localClientId : Option String := none
  deriving Repr, DecidableEq

/-- A durable consent-store interaction, for tracing whether the store was
consulted or written. -/
inductive ConsentStep where
  | checkStore (clientId : Option String)
  | saveStore (clientId : Option String)
  deriving Repr, DecidableEq

/-- The outcome of a consent-flow invocation: the final context, the emitted
response actions, the consent-store steps, and the exception with which the
promise chain rejected, if any.  A JS exception aborts the chain but the
mutations already applied to the context and the response survive, which is
why the context and actions are returned alongside the error. -/
structure ConsentOutcome where
  request : OpAuthRequest
  actions : List ResAction
  steps : List ConsentStep
  err : Option JsError
  deriving Repr, DecidableEq

/-- `LoginConsentRequest.extractParams`: the query object when it has a
truthy `client_id`, the body object otherwise. -/
def extractParams (req : OpAuthRequest) : AuthzParams :=
  if jsTruthy req.queryParams.clientId then req.queryParams else req.bodyParams

/-- `markConsentSuccess(opAuthRequest)`: sets `consent = true` and copies the
requested scope from the extracted params onto the context. -/
def markConsentSuccess (params : AuthzParams) (req : OpAuthRequest) : OpAuthRequest :=
  { req with consent := some true, scope := params.scope }

/-- `checkSavedConsentFor(clientId)`: the durable prior-consent store lookup,
which this code short-circuits to `Promise.resolve(false)`. -/
def checkSavedConsentFor (_clientId : Option String) : Bool :=
  false

/-- Model of `url.parse` + `${protocol}//${host}` in the V1 local-client
test: the app origin of the `redirect_uri`.  `url.parse` throws a
`TypeError` when its argument is not a string, modelled by the error case on
an absent `redirect_uri`; on a parseable URI the result agrees with
`urlOrigin`. -/
def appOriginOf : Option String → Except JsError String
  | none => .error { message := "The url argument must be of type string" }
  | some u =>
    match urlOrigin u with
    | some o => .ok o
    | none => .ok "null//null"

/-- Model of `url.format` on a parsed path plus a query object: the path,
with the serialized query string appended when it is nonempty. -/
def formatUrlWithQuery (path query : String) : String :=
  if query = "" then path else path ++ "?" ++ query

namespace LoginConsentV1

/-- `redirectToConsent()` of the V1 revision: build the `/sharing` URL from
the original query, null the subject, redirect, and raise the
`AuthResponseSent` signal (`signalResponseSent`). -/
def redirectToConsent (req : OpAuthRequest) : ConsentOutcome :=
  { request := { req with subject := none }
    actions := [.redirectTo (formatUrlWithQuery "/sharing" req.queryString)]
    steps := []
    err := some (authResponseSent "User redirected") }

/-- `hasAlreadyConsented(appOrigin)`: whether the session consented-origins
set contains the app origin. -/
def hasAlreadyConsented (req : OpAuthRequest) (appOrigin : String) : Bool :=
  req.consentedOrigins.contains appOrigin

/-- `LoginConsentRequest.obtainConsent` of the V1 revision: implicit consent
for the local RP client (app origin equal to the server URI), then the
already-consented-origin branch (which persists via `saveConsentForClient`),
then the durable-store lookup, and otherwise the interactive redirect. -/
def obtainConsent (req : OpAuthRequest) : ConsentOutcome :=
  let params := extractParams req
  let clientId := params.clientId
  match appOriginOf req.opParams.redirectUri with
  | .error e => { request := req, actions := [], steps := [], err := some e }
  | .ok appOrigin =>
    if req.serverUri = appOrigin then
      { request := markConsentSuccess params req, actions := [], steps := [], err := none }
    else if hasAlreadyConsented req appOrigin then
      { request := markConsentSuccess params req, actions := []
        steps := [.saveStore clientId], err := none }
    else
      if checkSavedConsentFor clientId then
        { request := markConsentSuccess params req, actions := []
          steps := [.checkStore clientId], err := none }
      else
        let r := redirectToConsent req
        { r with steps := .checkStore clientId :: r.steps }

/-- `LoginConsentRequest.handle(opAuthRequest, skipConsent)` of the V1
revision: pass through when not logged in; mark consent and pass through when
`skipConsent`; otherwise obtain consent. -/
def handle (req : OpAuthRequest) (skipConsent : Bool) : ConsentOutcome :=
  if req.subject.isNone then
    { request := req, actions := [], steps := [], err := none }
  else if skipConsent then
    { request := markConsentSuccess (extractParams req) req
      actions := [], steps := [], err := none }
  else
    obtainConsent req

end LoginConsentV1

namespace LoginConsentV2

/-- `isLocalRpClient(clientId)` of the V2 revision:
`!!clientId && clientId === host.localClientId`. -/
def isLocalRpClient (req : OpAuthRequest) (clientId : Option String) : Bool :=
  jsTruthy clientId && clientId = req.localClientId

/-- `renderConsentPage()` of the V2 revision: render the consent view with
the extracted params and mark the response as sent. -/
def renderConsentPage (req : OpAuthRequest) : ConsentOutcome :=
  { request := { req with headersSent := true }
    actions := [.render "auth/consent"]
    steps := []
    err := none }

/-- `LoginConsentRequest.obtainConsent` of the V2 revision: implicit consent
for the configured local client id, then the submitted-consent-flag branch
(which persists via `saveConsentForClient`), then the durable-store lookup,
and otherwise the consent view. -/
def obtainConsent (req : OpAuthRequest) : ConsentOutcome :=
  let params := extractParams req
  let clientId := params.clientId
  if isLocalRpClient req clientId then
    { request := markConsentSuccess params req, actions := [], steps := [], err := none }
  else if params.consentFlag then
    { request := markConsentSuccess params req, actions := []
      steps := [.saveStore clientId], err := none }
  else
    if checkSavedConsentFor clientId then
      { request := markConsentSuccess params req, actions := []
        steps := [.checkStore clientId], err := none }
    else
      let r := renderConsentPage req
      { r with steps := .checkStore clientId :: r.steps }

/-- `LoginConsentRequest.handle(opAuthRequest, skipConsent)` of the V2
revision. -/
def handle (req : OpAuthRequest) (skipConsent : Bool) : ConsentOutcome :=
  if req.subject.isNone then
    { request := req, actions := [], steps := [], err := none }
  else if skipConsent then
    { request := markConsentSuccess (extractParams req) req
      actions := [], steps := [], err := none }
  else
    obtainConsent req

end LoginConsentV2

namespace HostApi

/-- The `.catch(error => { debug(...) })` wrapper that `obtainConsent` in
`host-api.js` installs around `LoginConsentRequest.handle`: an erroneous
outcome is logged and replaced by a non-error outcome; a successful outcome
passes through. -/
def consentErrorHandler (o : ConsentOutcome) : ConsentOutcome :=
  match o.err with
  | some _ => { o with err := none }
  | none => o

/-- `obtainConsent(authRequest)` from `host-api.js`: delegates to
`LoginConsentRequest.handle` with `skipConsent = true` and catches every
rejection of the resulting promise chain. -/
def obtainConsent (req : OpAuthRequest) : ConsentOutcome :=
  consentErrorHandler (LoginConsentV1.handle req true)

end HostApi

/-! ## Concrete fixtures

Concrete environments and requests used by the witness and counterexample
theorems below.  They instantiate the collaborator parameters with small
executable functions. -/

/-- A network whose well-known configuration HEAD probe always succeeds and
whose discovery endpoints are unreachable. -/
def netSelfCheck : Net :=
  { headProbe := fun _ => .response true
    options := fun _ => .netError "unreachable"
    profile := fun _ => .netError "unreachable" }

/-- A network with no provider at the origin, a successful header probe that
advertises no issuer link, and a profile advertising two issuers. -/
def netProfileTwo : Net :=
  { headProbe := fun _ => .response false
    options := fun _ => .response true none
    profile := fun _ => .response true ["https://a.example/idp", "https://b.example/idp"] }

/-- A network whose header probe answers with a non-success status and whose
profile advertises one issuer. -/
def netHeaderNotOk : Net :=
  { headProbe := fun _ => .response false
    options := fun _ => .response false none
    profile := fun _ => .response true ["https://provider.example/"] }

/-- A network whose header probe is network-unreachable. -/
def netHeaderDown : Net :=
  { headProbe := fun _ => .response false
    options := fun _ => .netError "socket hang up"
    profile := fun _ => .response true ["https://provider.example/"] }

/-- A network whose header probe succeeds with no link and whose profile
fetch is network-unreachable. -/
def netProfileDown : Net :=
  { headProbe := fun _ => .response false
    options := fun _ => .response true none
    profile := fun _ => .netError "connection refused" }

/-- The Web ID used by the concrete callback runs. -/
def aliceWebId : String := "https://alice.example/#me"

/-- The auth session resolved by the concrete relying-party client. -/
def rpSessionAlice : RpAuthSession :=
  { accessToken := "access-token-1"
    refreshToken := "refresh-token-1"
    decodedPayload := "claims-alice" }

/-- Callback collaborators for a fully successful run: the client store knows
the issuer `https://op.example`, its client validates the concrete request
URI, and the resolver maps the decoded claims to the Web ID. -/
def envCallbackOk : CallbackEnv :=
  { clientForIssuer := fun i =>
      if i = "https://op.example" then
        .ok (fun u _ =>
          if u = "https://pod.example/api/oidc/rp/cb" then .ok rpSessionAlice
          else .error (rawFetchError "bad request uri"))
      else .error (rawFetchError "unknown issuer")
    webIdFromClaims := fun c =>
      if c = "claims-alice" then .ok aliceWebId
      else .error (rawFetchError "no webid claim") }

/-- Callback collaborators whose client store always rejects. -/
def envClientFails : CallbackEnv :=
  { clientForIssuer := fun _ => .error { message := "client store offline", statusCode := some 500 }
    webIdFromClaims := fun _ => .error (rawFetchError "unused") }

/-- The session as it stands when the provider redirects back: a
`returnToUrl` was stored by the selection flow, and the user is not yet
identified. -/
def sessionBefore : Session :=
  { returnToUrl := some "https://pod.example/inbox" }

/-- The callback request of the successful concrete run. -/
def callbackReqOk : AuthCallbackRequest :=
  AuthCallbackRequest.fromParams (some "https://op.example")
    "https://pod.example/api/oidc/rp/cb" sessionBefore

/-- A callback request whose issuer path parameter is absent. -/
def callbackReqNoIssuer : AuthCallbackRequest :=
  AuthCallbackRequest.fromParams none "https://pod.example/api/oidc/rp/cb" sessionBefore

/-- An authenticated authorization request from a third-party client with no
prior consent of any kind: the consent flow must go interactive on it. -/
def consentReqPending : OpAuthRequest :=
  { subject := some aliceWebId
    opParams := { redirectUri := some "https://app.example/callback" }
    queryParams := { clientId := some "app-123", scope := some "openid profile" }
    queryString := "client_id=app-123&scope=openid"
    serverUri := "https://pod.example"
    consentedOrigins := [] }

/-- An authenticated authorization request from the configured local
first-party client. -/
def consentReqLocal : OpAuthRequest :=
  { subject := some aliceWebId
    queryParams := { clientId := some "local-client-1", scope := some "openid" }
    localClientId := some "local-client-1" }

/-! ## Claim theorems -/

/-- C7: for every URI whose origin answers the HEAD probe of
`<origin>/.well-known/openid-configuration` with a successful status,
`preferredProviderFor` returns the origin, and the only network call issued
is that probe — in particular neither the header probe of the URI nor the
profile fetch (the discovery step) is invoked. -/
theorem C7_self_check_short_circuits (net : Net) (uri o : String)
    (h1 : urlOrigin uri = some o)
    (h2 : net.headProbe (o ++ "/.well-known/openid-configuration") = .response true) :
    preferredProviderFor net uri =
      ([.head (o ++ "/.well-known/openid-configuration")], .ok o) := by
  unfold preferredProviderFor providerExists
  simp [h1, h2]

/-- C7 witness: the concrete run on `netSelfCheck`. -/
theorem C7_witness :
    urlOrigin "https://pod.example/profile/card#me" = some "https://pod.example" ∧
    netSelfCheck.headProbe "https://pod.example/.well-known/openid-configuration" = .response true ∧
    preferredProviderFor netSelfCheck "https://pod.example/profile/card#me" =
      ([.head "https://pod.example/.well-known/openid-configuration"], .ok "https://pod.example") :=
  ⟨rfl, rfl,
    C7_self_check_short_circuits netSelfCheck "https://pod.example/profile/card#me"
      "https://pod.example" rfl rfl⟩

/-- C8 counterexample: the claim says `https://` is prepended exactly when
the input has no scheme, and that every non-empty input is made absolute and
scheme-qualified.  The input `httpfoo.example` contains no colon at all, so
it has no scheme under any reading, yet `normalizeUri` returns it unchanged
(the code tests `startsWith("http")`, not scheme presence), and the result is
neither scheme-qualified nor accepted as a URI. -/
theorem C8_counterexample :
    normalizeUri (some "httpfoo.example") = some "httpfoo.example" ∧
    "httpfoo.example".data.contains ':' = false ∧
    isUri "httpfoo.example" = false := by
  refine ⟨rfl, by decide, rfl⟩

/-- C8 (amended): `normalizeUri` prepends `https://` to a non-empty input
exactly when the input does not start with `http`; `null` and the empty
string are returned as is; the three examples of the claim hold as stated. -/
theorem C8_normalize_uri :
    normalizeUri none = none ∧
    normalizeUri (some "") = some "" ∧
    (∀ s, s ≠ "" → charsLeadWith s "http" = false →
      normalizeUri (some s) = some ("https://" ++ s)) ∧
    (∀ s, charsLeadWith s "http" = true → normalizeUri (some s) = some s) ∧
    normalizeUri (some "localhost:8443") = some "https://localhost:8443" ∧
    normalizeUri (some "https://a.example") = some "https://a.example" := by
  refine ⟨rfl, rfl, ?_, ?_, by decide, by decide⟩
  · intro s h1 h2
    simp [normalizeUri, h1, h2]
  · intro s h2
    by_cases h1 : s = ""
    · subst h1
      rfl
    · simp [normalizeUri, h1, h2]

/-- C8 witness: the amended theorem applied at concrete inputs. -/
theorem C8_witness :
    normalizeUri (some "solid.community") = some ("https://" ++ "solid.community") ∧
    normalizeUri (some "http://insecure.example") = some "http://insecure.example" :=
  ⟨C8_normalize_uri.2.2.1 "solid.community" (by decide) (by decide),
   C8_normalize_uri.2.2.2.1 "http://insecure.example" (by decide)⟩

/-- C9: when the issuer path parameter is absent (or decodes to something
falsy), the callback handler chain stops at `validate()` with the 400-class
error `Issuer id is missing from request params`; the empty step trace shows
that neither the client store nor the response validation was consulted. -/
theorem C9_missing_issuer_fails_fast (env : CallbackEnv) (r : AuthCallbackRequest)
    (h : jsTruthy r.issuer = false) :
    AuthCallbackRequest.handle env r =
      { session := r.session, actions := [], steps := []
        err := some AuthCallbackRequest.issuerMissingError } ∧
    AuthCallbackRequest.issuerMissingError.statusCode = some 400 ∧
    AuthCallbackRequest.issuerMissingError.message =
      "Issuer id is missing from request params" := by
  refine ⟨?_, rfl, rfl⟩
  unfold AuthCallbackRequest.handle
  simp [h]

/-- C9 witness: the concrete request with no issuer parameter, under the
fully working collaborators. -/
theorem C9_witness :
    jsTruthy callbackReqNoIssuer.issuer = false ∧
    AuthCallbackRequest.handle envCallbackOk callbackReqNoIssuer =
      { session := callbackReqNoIssuer.session, actions := [], steps := []
        err := some AuthCallbackRequest.issuerMissingError } :=
  ⟨rfl, (C9_missing_issuer_fails_fast envCallbackOk callbackReqNoIssuer rfl).1⟩

/-- Helper: whenever the callback handler chain rejects, it has emitted no
response action (every error exit precedes `resumeUserWorkflow`). -/
theorem callback_handle_error_no_actions (env : CallbackEnv) (r : AuthCallbackRequest)
    (e : JsError) (h : (AuthCallbackRequest.handle env r).err = some e) :
    (AuthCallbackRequest.handle env r).actions = [] := by
  unfold AuthCallbackRequest.handle at *
  by_cases hI : jsTruthy r.issuer
  · simp only [hI] at h ⊢
    rcases hC : env.clientForIssuer (r.issuer.getD "") with eC | cl
    · simp [hC]
    · simp only [hC] at h ⊢
      rcases hV : cl r.requestUri r.session with eV | rp
      · simp [hV]
      · simp only [hV] at h ⊢
        rcases hW : env.webIdFromClaims rp.decodedPayload with eW | w
        · simp [hW]
        · simp [hW] at h
  · simp [hI]

/-- C6: every rejection of the callback handler chain is logged and turned
into a redirect to the `/login` entry point by `AuthCallbackRequest.get`;
no error page is rendered and nothing propagates to the framework. -/
theorem C6_callback_errors_redirect_to_login (env : CallbackEnv)
    (r : AuthCallbackRequest) (e : JsError)
    (h : (AuthCallbackRequest.handle env r).err = some e) :
    AuthCallbackRequest.get env r =
      { session := (AuthCallbackRequest.handle env r).session
        actions := [.redirectTo "/login"]
        steps := (AuthCallbackRequest.handle env r).steps
        logged := [e]
        propagated := none } := by
  unfold AuthCallbackRequest.get
  simp only []
  rw [h, callback_handle_error_no_actions env r e h]
  simp

/-- C6 witness: a run whose client store rejects is converted into the
`/login` redirect. -/
theorem C6_witness :
    (AuthCallbackRequest.handle envClientFails callbackReqOk).err =
      some { message := "client store offline", statusCode := some 500 } ∧
    AuthCallbackRequest.get envClientFails callbackReqOk =
      { session := callbackReqOk.session
        actions := [.redirectTo "/login"]
        steps := [.clientLoad "https://op.example"]
        logged := [{ message := "client store offline", statusCode := some 500 }]
        propagated := none } :=
  ⟨rfl, C6_callback_errors_redirect_to_login envClientFails callbackReqOk
    { message := "client store offline", statusCode := some 500 } rfl⟩

/-- C1 counterexample: a fully successful concrete callback run — response
validation succeeds and the resolver yields the Web ID — after which
`session.userId` holds the identity, `session.returnToUrl` is deleted and
the response is the 302 redirect to the previously stored URL, yet
`session.identified` is NOT `true`: this revision of the handler never sets
it, refuting the claim as stated. -/
theorem C1_counterexample :
    (AuthCallbackRequest.handle envCallbackOk callbackReqOk).err = none ∧
    (AuthCallbackRequest.handle envCallbackOk callbackReqOk).session.userId =
      some aliceWebId ∧
    (AuthCallbackRequest.handle envCallbackOk callbackReqOk).session.returnToUrl = none ∧
    (AuthCallbackRequest.handle envCallbackOk callbackReqOk).actions =
      [.redirect 302 "https://pod.example/inbox"] ∧
    ¬ (AuthCallbackRequest.handle envCallbackOk callbackReqOk).session.identified =
      some true := by
  refine ⟨rfl, rfl, rfl, rfl, ?_⟩
  intro h
  rw [show (AuthCallbackRequest.handle envCallbackOk callbackReqOk).session.identified =
      none from rfl] at h
  exact Option.noConfusion h

/-- C1 (amended): on every successful callback — the issuer client loads,
its response validation succeeds, and the claims-to-identity resolver yields
`w` — the handler copies the tokens onto the session, sets `session.userId`
to `w`, deletes `session.returnToUrl`, and issues a 302 redirect to the
`returnToUrl` stored in the session before the callback, defaulting to `/`
when none was stored; `session.identified` is left unchanged (this revision
does not set it). -/
theorem C1_callback_success (env : CallbackEnv) (i requestUri : String)
    (sess : Session) (cl : String → Session → Except JsError RpAuthSession)
    (rp : RpAuthSession) (w : String)
    (hi : i ≠ "")
    (hCl : env.clientForIssuer i = .ok cl)
    (hV : cl requestUri sess = .ok rp)
    (hW : env.webIdFromClaims rp.decodedPayload = .ok w) :
    AuthCallbackRequest.handle env
        (AuthCallbackRequest.fromParams (some i) requestUri sess) =
      { session :=
          { objectAssignSession sess rp with userId := some w, returnToUrl := none }
        actions := [.redirect 302
          (AuthCallbackRequest.returnToUrlOrRoot
            (AuthCallbackRequest.extractReturnToUrl sess))]
        steps := [.clientLoad i, .validateResp requestUri, .resolveWebId rp.decodedPayload]
        err := none } ∧
    ({ objectAssignSession sess rp with
        userId := some w, returnToUrl := none } : Session).identified =
      sess.identified := by
  constructor
  · unfold AuthCallbackRequest.handle AuthCallbackRequest.fromParams
    simp [jsTruthy, hi, decodeUriComponent, hCl, hV, hW]
  · rfl

/-- C1 witness: the amended theorem applied to the concrete successful run. -/
theorem C1_witness :
    AuthCallbackRequest.handle envCallbackOk callbackReqOk =
      { session :=
          { objectAssignSession sessionBefore rpSessionAlice with
              userId := some aliceWebId, returnToUrl := none }
        actions := [.redirect 302
          (AuthCallbackRequest.returnToUrlOrRoot
            (AuthCallbackRequest.extractReturnToUrl sessionBefore))]
        steps := [.clientLoad "https://op.example",
          .validateResp "https://pod.example/api/oidc/rp/cb",
          .resolveWebId rpSessionAlice.decodedPayload]
        err := none } :=
  (C1_callback_success envCallbackOk "https://op.example"
    "https://pod.example/api/oidc/rp/cb" sessionBefore _ rpSessionAlice aliceWebId
    (by decide) rfl rfl rfl).1

/-- C5: an authenticated authorization request whose extracted `client_id`
equals the configured `host.localClientId` gets implicit consent: the
context leaves the flow with `consent = true` and the requested scope, with
no consent-store step, no persisted record, and no response action (neither
a redirect nor a rendered consent page). -/
theorem C5_local_client_implicit_consent (req : OpAuthRequest) (c : String)
    (hSubj : req.subject.isSome)
    (hC : (extractParams req).clientId = some c)
    (hc : c ≠ "")
    (hL : req.localClientId = some c) :
    LoginConsentV2.handle req false =
      { request := { req with consent := some true, scope := (extractParams req).scope }
        actions := []
        steps := []
        err := none } := by
  have hn : req.subject.isNone = false := by
    rcases hsub : req.subject with _ | s
    · rw [hsub] at hSubj
      simp at hSubj
    · rfl
  unfold LoginConsentV2.handle LoginConsentV2.obtainConsent
  simp [hn, LoginConsentV2.isLocalRpClient, hC, hL, jsTruthy, hc, markConsentSuccess]

/-- C5 witness: the concrete local-client request. -/
theorem C5_witness :
    LoginConsentV2.handle consentReqLocal false =
      { request := { consentReqLocal with consent := some true, scope := some "openid" }
        actions := []
        steps := []
        err := none } :=
  C5_local_client_implicit_consent consentReqLocal "local-client-1" rfl rfl
    (by decide) rfl

/-- C10: the durable prior-consent store lookup `checkSavedConsentFor`
resolves to `false` for every client id, so on every authenticated request
from a non-local client with no already-consented origin (and no submitted
consent flag), the flow consults the stub store, then redirects to the
interactive `/sharing` consent page carrying the original query, nulls the
subject, raises the `AuthResponseSent` signal, and leaves `consent` unset. -/
theorem C10_consent_store_never_grants (req : OpAuthRequest) (ao : String)
    (hSubj : req.subject.isSome)
    (hAO : appOriginOf req.opParams.redirectUri = .ok ao)
    (hNotLocal : req.serverUri ≠ ao)
    (hNoPrior : req.consentedOrigins.contains ao = false)
    (_hNoFlag : (extractParams req).consentFlag = false)
    (hUnset : req.consent = none) :
    (∀ cid, checkSavedConsentFor cid = false) ∧
    LoginConsentV1.handle req false =
      { request := { req with subject := none }
        actions := [.redirectTo (formatUrlWithQuery "/sharing" req.queryString)]
        steps := [.checkStore (extractParams req).clientId]
        err := some (authResponseSent "User redirected") } ∧
    (LoginConsentV1.handle req false).request.consent = none := by
  have hmain : LoginConsentV1.handle req false =
      { request := { req with subject := none }
        actions := [.redirectTo (formatUrlWithQuery "/sharing" req.queryString)]
        steps := [.checkStore (extractParams req).clientId]
        err := some (authResponseSent "User redirected") } := by
    unfold LoginConsentV1.handle LoginConsentV1.obtainConsent
    simp only [Option.isSome_iff_exists] at hSubj
    obtain ⟨s, hs⟩ := hSubj
    have hNoPrior2 : ao ∉ req.consentedOrigins := by
      simpa using hNoPrior
    simp [hs, hAO, hNotLocal, LoginConsentV1.hasAlreadyConsented, hNoPrior2,
      checkSavedConsentFor, LoginConsentV1.redirectToConsent]
  refine ⟨fun _ => rfl, hmain, ?_⟩
  rw [hmain]
  exact hUnset

/-- C10 witness: the concrete pending-consent request. -/
theorem C10_witness :
    LoginConsentV1.handle consentReqPending false =
      { request := { consentReqPending with subject := none }
        actions := [.redirectTo "/sharing?client_id=app-123&scope=openid"]
        steps := [.checkStore (some "app-123")]
        err := some (authResponseSent "User redirected") } :=
  (C10_consent_store_never_grants consentReqPending "https://app.example"
    rfl rfl (by decide) rfl rfl rfl).2.1

/-- C2 counterexample: a concrete consent-flow invocation that ends by
redirecting to the interactive consent page rejects with the
`AuthResponseSent` signal — but the `.catch` wrapper that
`HostAuthBridge.obtainConsent` (`host-api.js`) installs around
`LoginConsentRequest.handle` swallows that very outcome instead of letting
it propagate, refuting the claim that no intermediate layer catches it. -/
theorem C2_counterexample :
    (LoginConsentV1.handle consentReqPending false).err =
      some (authResponseSent "User redirected") ∧
    (HostApi.consentErrorHandler (LoginConsentV1.handle consentReqPending false)).err =
      none := by
  exact ⟨rfl, rfl⟩

/-- C2 (amended): the `AuthResponseSent` signal raised after the consent
redirect propagates unmodified through the `LoginConsentRequest` layers
(`obtainConsent` and `handle` add no handler around it), but
`HostAuthBridge.obtainConsent` wraps the flow in a catch-all that swallows
every erroneous outcome — the signal included — and moreover always invokes
the flow with `skipConsent` set, so the interactive redirect never happens
through it. -/
theorem C2_signal_propagation :
    (∀ req : OpAuthRequest, req.subject.isSome →
      LoginConsentV1.handle req false = LoginConsentV1.obtainConsent req) ∧
    (∀ req : OpAuthRequest, ∀ ao : String, req.subject.isSome →
      appOriginOf req.opParams.redirectUri = .ok ao →
      req.serverUri ≠ ao →
      req.consentedOrigins.contains ao = false →
      (LoginConsentV1.obtainConsent req).err = (LoginConsentV1.redirectToConsent req).err ∧
      (LoginConsentV1.redirectToConsent req).err =
        some (authResponseSent "User redirected")) ∧
    (∀ o : ConsentOutcome, o.err.isSome → (HostApi.consentErrorHandler o).err = none) ∧
    (∀ req : OpAuthRequest,
      HostApi.obtainConsent req =
        HostApi.consentErrorHandler (LoginConsentV1.handle req true)) := by
  refine ⟨?_, ?_, ?_, fun req => rfl⟩
  · intro req hSubj
    have hn : req.subject.isNone = false := by
      rcases hsub : req.subject with _ | s
      · rw [hsub] at hSubj
        simp at hSubj
      · rfl
    unfold LoginConsentV1.handle
    simp [hn]
  · intro req ao hSubj hAO hNotLocal hNoPrior
    have hNoPrior2 : ao ∉ req.consentedOrigins := by
      simpa using hNoPrior
    constructor
    · unfold LoginConsentV1.obtainConsent
      simp [hAO, hNotLocal, LoginConsentV1.hasAlreadyConsented, hNoPrior2,
        checkSavedConsentFor]
    · rfl
  · intro o h
    unfold HostApi.consentErrorHandler
    rcases he : o.err with _ | e
    · rw [he] at h
      simp at h
    · simp [he]

/-- C2 witness: the amended theorem applied to the concrete pending-consent
request and its outcome. -/
theorem C2_witness :
    LoginConsentV1.handle consentReqPending false =
      LoginConsentV1.obtainConsent consentReqPending ∧
    (LoginConsentV1.obtainConsent consentReqPending).err =
      (LoginConsentV1.redirectToConsent consentReqPending).err ∧
    (HostApi.consentErrorHandler (LoginConsentV1.handle consentReqPending false)).err =
      none :=
  ⟨C2_signal_propagation.1 consentReqPending rfl,
   (C2_signal_propagation.2.1 consentReqPending "https://app.example" rfl rfl
     (by decide) rfl).1,
   C2_signal_propagation.2.2.1 (LoginConsentV1.handle consentReqPending false) rfl⟩

/-- Helper: the empty string is not URL-parseable. -/
theorem urlOrigin_empty : urlOrigin "" = none := rfl

/-- Helper: the loop body on a falsy candidate. -/
theorem candidateStep_empty (webId : String) :
    candidateStep webId "" = .ok (.inr (noIssuerAdvertisedError webId)) := rfl

/-- Helper: the loop body on a parseable candidate whose origin validates. -/
theorem candidateStep_valid (webId c o : String) (hc : c ≠ "")
    (ho : urlOrigin c = some o)
    (hv : validateProviderUri (some o) webId = .ok ()) :
    candidateStep webId c = .ok (.inl o) := by
  unfold candidateStep
  rw [if_neg hc, ho]
  dsimp only
  rw [hv]

/-- Helper: the single-element (final-iteration) equation of the loop. -/
theorem discoverLoop_single (webId : String) (issuer : Option String) (c : String) :
    discoverLoop webId issuer [c] =
      match candidateStep webId c with
      | .error e => .error e
      | .ok (.inl o) =>
        if issuerMatches issuer o then .ok o
        else .error (noIssuerAdvertisedError webId)
      | .ok (.inr vErr) => .error vErr := rfl

/-- Helper: the two-or-more-element equation of the loop. -/
theorem discoverLoop_cons2 (webId : String) (issuer : Option String)
    (c y : String) (ys : List String) :
    discoverLoop webId issuer (c :: y :: ys) =
      match candidateStep webId c with
      | .error e => .error e
      | .ok (.inl o) =>
        if issuerMatches issuer o then .ok o
        else discoverLoop webId issuer (y :: ys)
      | .ok (.inr _) => discoverLoop webId issuer (y :: ys) := rfl

/-- Helper: a validated, matching candidate returns from the loop. -/
theorem discoverLoop_cons_match (webId : String) (issuer : Option String)
    (c o : String) (rest : List String)
    (h : candidateStep webId c = .ok (.inl o))
    (hm : issuerMatches issuer o = true) :
    discoverLoop webId issuer (c :: rest) = .ok o := by
  rcases rest with _ | ⟨y, ys⟩
  · rw [discoverLoop_single, h]
    simp [hm]
  · rw [discoverLoop_cons2, h]
    simp [hm]

/-- Helper: a validated but non-matching candidate followed by further
candidates hands over to the rest of the loop. -/
theorem discoverLoop_cons_skip (webId : String) (issuer : Option String)
    (c o y : String) (ys : List String)
    (h : candidateStep webId c = .ok (.inl o))
    (hm : issuerMatches issuer o = false) :
    discoverLoop webId issuer (c :: y :: ys) = discoverLoop webId issuer (y :: ys) := by
  rw [discoverLoop_cons2, h]
  simp [hm]

/-- Helper: a candidate that fails validation, followed by further
candidates, hands over to the rest of the loop (its error is only kept when
it is the final iteration). -/
theorem discoverLoop_cons_invalid (webId : String) (issuer : Option String)
    (c y : String) (ys : List String) (e : JsError)
    (h : candidateStep webId c = .ok (.inr e)) :
    discoverLoop webId issuer (c :: y :: ys) = discoverLoop webId issuer (y :: ys) := by
  rw [discoverLoop_cons2, h]

/-- Helper: with an expected issuer supplied, the candidate loop returns the
expected origin whenever some candidate normalizes to it, provided every
non-empty candidate parses and validates (a candidate that fails to parse
would abort the whole loop with the URL-constructor exception). -/
theorem discoverLoop_finds_match (webId t : String) (ht : t ≠ "") :
    ∀ cs : List String,
      (∀ c ∈ cs, c ≠ "" →
        ∃ o, urlOrigin c = some o ∧ validateProviderUri (some o) webId = .ok ()) →
      (∃ c ∈ cs, urlOrigin c = some t) →
      discoverLoop webId (some t) cs = .ok t := by
  intro cs
  induction cs with
  | nil =>
    intro _ hex
    simp at hex
  | cons c rest ih =>
    intro hval hex
    by_cases hc : c = ""
    · have hwit : ∃ x ∈ rest, urlOrigin x = some t := by
        obtain ⟨x, hx, hox⟩ := hex
        rcases List.mem_cons.mp hx with hx1 | hx2
        · subst hx1
          rw [hc, urlOrigin_empty] at hox
          exact absurd hox (by simp)
        · exact ⟨x, hx2, hox⟩
      have hne : rest ≠ [] := by
        rintro rfl
        obtain ⟨x, hx, _⟩ := hwit
        simp at hx
      rcases rest with _ | ⟨y, ys⟩
      · exact absurd rfl hne
      · rw [hc, discoverLoop_cons_invalid webId (some t) "" y ys
          (noIssuerAdvertisedError webId) (candidateStep_empty webId)]
        exact ih (fun z hz => hval z (List.mem_cons_of_mem _ hz)) hwit
    · obtain ⟨o, ho, hv⟩ := hval c (List.mem_cons_self c rest) hc
      by_cases hot : o = t
      · subst hot
        have hm : issuerMatches (some o) o = true := by
          simp [issuerMatches, jsTruthy, ht]
        exact discoverLoop_cons_match webId (some o) c o rest
          (candidateStep_valid webId c o hc ho hv) hm
      · have hwit : ∃ x ∈ rest, urlOrigin x = some t := by
          obtain ⟨x, hx, hox⟩ := hex
          rcases List.mem_cons.mp hx with hx1 | hx2
          · subst hx1
            rw [ho] at hox
            exact absurd (Option.some.inj hox) hot
          · exact ⟨x, hx2, hox⟩
        have hne : rest ≠ [] := by
          rintro rfl
          obtain ⟨x, hx, _⟩ := hwit
          simp at hx
        rcases rest with _ | ⟨y, ys⟩
        · exact absurd rfl hne
        · have hm : issuerMatches (some t) o = false := by
            simp [issuerMatches, jsTruthy, ht]
            intro he
            exact absurd he.symm hot
          rw [discoverLoop_cons_skip webId (some t) c o y ys
            (candidateStep_valid webId c o hc ho hv) hm]
          exact ih (fun z hz => hval z (List.mem_cons_of_mem _ hz)) hwit

/-- Helper: with no expected issuer, the loop returns the first candidate
that validates, skipping over any leading falsy candidates. -/
theorem discoverLoop_first_valid (webId : String) :
    ∀ pre : List String, (∀ p ∈ pre, p = "") →
      ∀ c o : String, ∀ rest : List String, c ≠ "" → urlOrigin c = some o →
        validateProviderUri (some o) webId = .ok () →
        discoverLoop webId none (pre ++ c :: rest) = .ok o := by
  intro pre
  induction pre with
  | nil =>
    intro _ c o rest hc ho hv
    have hm : issuerMatches none o = true := by
      simp [issuerMatches, jsTruthy]
    exact discoverLoop_cons_match webId none c o rest
      (candidateStep_valid webId c o hc ho hv) hm
  | cons p ps ih =>
    intro hpre c o rest hc ho hv
    have hp : p = "" := hpre p (List.mem_cons_self p ps)
    have hrec := ih (fun z hz => hpre z (List.mem_cons_of_mem _ hz)) c o rest hc ho hv
    rcases hsplit : ps ++ c :: rest with _ | ⟨y, ys⟩
    · exact absurd hsplit (by simp)
    · subst hp
      have := discoverLoop_cons_invalid webId none "" y ys
        (noIssuerAdvertisedError webId) (candidateStep_empty webId)
      calc discoverLoop webId none ("" :: (ps ++ c :: rest))
          = discoverLoop webId none ("" :: y :: ys) := by rw [hsplit]
        _ = discoverLoop webId none (y :: ys) := this
        _ = discoverLoop webId none (ps ++ c :: rest) := by rw [← hsplit]
        _ = .ok o := hrec

/-- C3: when the header probe yields nothing and the profile advertises the
candidate list `cs`, discovery normalizes each candidate to its origin and
validates it, and: with an expected issuer supplied it returns the expected
origin as soon as some candidate normalizes to it (the first such match, all
candidates parseable); with no expected issuer it returns the first
validated candidate.  In particular, for `[A, B]` with expected issuer
`origin(B)` it returns `origin(B)` (see the witness). -/
theorem C3_discovery_disambiguation (net : Net) (webId : String) (cs : List String)
    (hO : net.options webId = .response true none)
    (hP : net.profile webId = .response true cs) :
    (∀ t, t ≠ "" →
      (∀ c ∈ cs, c ≠ "" →
        ∃ o, urlOrigin c = some o ∧ validateProviderUri (some o) webId = .ok ()) →
      (∃ c ∈ cs, urlOrigin c = some t) →
      (discoverProviderFor net webId (some t)).2 = .ok t) ∧
    (∀ pre c rest o, cs = pre ++ c :: rest → (∀ p ∈ pre, p = "") →
      c ≠ "" → urlOrigin c = some o → validateProviderUri (some o) webId = .ok () →
      (discoverProviderFor net webId none).2 = .ok o) := by
  have hreduce : ∀ issuer : Option String,
      (discoverProviderFor net webId issuer).2 = discoverLoop webId issuer cs := by
    intro issuer
    unfold discoverProviderFor discoverFromHeaders discoverAllFromProfile
    rw [hO, hP]
    simp [jsTruthy]
  constructor
  · intro t ht hval hex
    rw [hreduce (some t)]
    exact discoverLoop_finds_match webId t ht cs hval hex
  · intro pre c rest o hcs hpre hc ho hv
    rw [hreduce none, hcs]
    exact discoverLoop_first_valid webId pre hpre c o rest hc ho hv

/-- C3 witness: profile advertising `[A, B]` with
`A = https://a.example/idp`, `B = https://b.example/idp`: with expected
issuer `origin(B)` discovery returns `origin(B)`; with no expected issuer it
returns `origin(A)`. -/
theorem C3_witness :
    (discoverProviderFor netProfileTwo "https://me.example/profile#me"
        (some "https://b.example")).2 = .ok "https://b.example" ∧
    (discoverProviderFor netProfileTwo "https://me.example/profile#me" none).2 =
      .ok "https://a.example" :=
  ⟨(C3_discovery_disambiguation netProfileTwo "https://me.example/profile#me"
      ["https://a.example/idp", "https://b.example/idp"] rfl rfl).1
      "https://b.example" (by decide)
      (by
        intro c hc hne
        have hc2 : c = "https://a.example/idp" ∨ c = "https://b.example/idp" := by
          simpa using hc
        rcases hc2 with hc2 | hc2
        · subst hc2
          exact ⟨"https://a.example", rfl, rfl⟩
        · subst hc2
          exact ⟨"https://b.example", rfl, rfl⟩)
      ⟨"https://b.example/idp", by simp, rfl⟩,
   (C3_discovery_disambiguation netProfileTwo "https://me.example/profile#me"
      ["https://a.example/idp", "https://b.example/idp"] rfl rfl).2
      [] "https://a.example/idp" ["https://b.example/idp"] "https://a.example"
      rfl (by simp) (by decide) rfl rfl⟩

/-- C4 counterexample: the claim says a non-success status or network
failure at EITHER discovery step yields the typed identity-unreachable
failure.  Concretely: (a) with a non-success status at the header probe and
a reachable profile advertising an issuer, discovery does not fail at all —
it falls through and succeeds; (b) with network unreachability at the header
probe, the raw fetch error propagates unretyped — no `statusCode` 400 and no
identity URI in the message. -/
theorem C4_counterexample :
    netHeaderNotOk.options "https://me.example/profile#me" = .response false none ∧
    (discoverProviderFor netHeaderNotOk "https://me.example/profile#me" none).2 =
      .ok "https://provider.example" ∧
    netHeaderDown.options "https://me.example/profile#me" = .netError "socket hang up" ∧
    (discoverProviderFor netHeaderDown "https://me.example/profile#me" none).2 =
      .error (rawFetchError "socket hang up") ∧
    (rawFetchError "socket hang up").statusCode = none :=
  ⟨rfl, rfl, rfl, rfl, rfl⟩

/-- C4 (amended): a non-success status at the header probe yields no
provider there and discovery falls through to the profile step; network
unreachability at the header probe propagates the underlying fetch error
unchanged (no 400, no typed message); if the profile step is
network-unreachable or answers with a non-success status, discovery fails
with the typed identity-unreachable error — `statusCode` 400 and a message
carrying the original identity URI — which is distinct from the
no-issuer-advertised failure produced for a reachable identity with no
issuer. -/
theorem C4_unreachable_typing :
    (∀ (net : Net) (webId : String) (issuer link : Option String),
      net.options webId = .response false link →
      (discoverProviderFor net webId issuer).1 = [.optionsCall webId, .profileLoad webId] ∧
      (discoverProviderFor net webId issuer).2 =
        (match (discoverAllFromProfile net webId).2 with
         | .error e => .error e
         | .ok list => discoverLoop webId issuer list)) ∧
    (∀ (net : Net) (webId m : String) (issuer : Option String),
      net.options webId = .netError m →
      (discoverProviderFor net webId issuer).2 = .error (rawFetchError m) ∧
      (rawFetchError m).statusCode = none) ∧
    (∀ (net : Net) (webId m : String) (issuer : Option String) (ok1 : Bool)
      (l : Option String),
      net.options webId = .response ok1 l →
      jsTruthy (if ok1 then l else none) = false →
      net.profile webId = .netError m →
      (discoverProviderFor net webId issuer).2 =
        .error (unreachableError webId (some m))) ∧
    (∀ (net : Net) (webId : String) (issuer : Option String) (ok1 : Bool)
      (l : Option String) (xs : List String),
      net.options webId = .response ok1 l →
      jsTruthy (if ok1 then l else none) = false →
      net.profile webId = .response false xs →
      (discoverProviderFor net webId issuer).2 =
        .error (unreachableError webId none)) ∧
    (∀ (w : String) (c : Option String),
      (unreachableError w c).statusCode = some 400 ∧
      (unreachableError w c).message =
        "Could not reach Web ID " ++ w ++ " to discover provider" ∧
      (unreachableError w c).message ≠ (noIssuerAdvertisedError w).message) := by
  refine ⟨?_, ?_, ?_, ?_, ?_⟩
  · intro net webId issuer link hO
    unfold discoverProviderFor discoverFromHeaders
    rw [hO]
    simp [jsTruthy, discoverAllFromProfile]
  · intro net webId m issuer hO
    refine ⟨?_, rfl⟩
    unfold discoverProviderFor discoverFromHeaders
    rw [hO]
  · intro net webId m issuer ok1 l hO hl hP
    unfold discoverProviderFor discoverFromHeaders discoverAllFromProfile
    rw [hO, hP]
    simp [hl]
  · intro net webId issuer ok1 l xs hO hl hP
    unfold discoverProviderFor discoverFromHeaders discoverAllFromProfile
    rw [hO, hP]
    simp [hl]
  · intro w c
    refine ⟨rfl, rfl, ?_⟩
    intro h
    have hl := congrArg String.length h
    simp only [unreachableError, noIssuerAdvertisedError, String.length_append] at hl
    rw [show ("Could not reach Web ID ").length = 23 from rfl,
      show (" to discover provider").length = 21 from rfl,
      show ("OIDC issuer not advertised for ").length = 31 from rfl,
      show (".\n    See https://github.com/solid/webid-oidc-spec#authorized-oidc-issuer-discovery").length = 83 from rfl] at hl
    omega

/-- C4 witness: the amended theorem applied at the concrete networks. -/
theorem C4_witness :
    (discoverProviderFor netHeaderNotOk "https://me.example/profile#me" none).1 =
      [.optionsCall "https://me.example/profile#me",
        .profileLoad "https://me.example/profile#me"] ∧
    (discoverProviderFor netHeaderDown "https://me.example/profile#me" none).2 =
      .error (rawFetchError "socket hang up") ∧
    (discoverProviderFor netProfileDown "https://me.example/profile#me" none).2 =
      .error (unreachableError "https://me.example/profile#me"
        (some "connection refused")) ∧
    (unreachableError "https://me.example/profile#me" (some "connection refused")).message ≠
      (noIssuerAdvertisedError "https://me.example/profile#me").message :=
  ⟨(C4_unreachable_typing.1 netHeaderNotOk "https://me.example/profile#me" none none
      rfl).1,
   (C4_unreachable_typing.2.1 netHeaderDown "https://me.example/profile#me"
      "socket hang up" none rfl).1,
   C4_unreachable_typing.2.2.1 netProfileDown "https://me.example/profile#me"
      "connection refused" none true none rfl rfl rfl,
   (C4_unreachable_typing.2.2.2.2 "https://me.example/profile#me"
      (some "connection refused")).2.2⟩
